import Mathlib

/-!
Shallow embedding of the challenge-response MFA core of the phishproof-mfa
repository: the challenge ledger and WebAuthn flows (src/backend/webauthn.js),
the SQLite-backed user and audit stores (src/backend/database.js), the JWT
session issuer (src/backend/auth.js), and the Express route handlers
(src/backend/routes.js).

Conventions of the embedding:
- Time is an explicit parameter: milliseconds for the challenge ledger
  (Date.now in the source), seconds for JWT claims.
- Randomness (challenge tokens, generated user ids) and opaque cryptographic
  verdicts of the SimpleWebAuthn library (attestation/assertion validity) are
  oracle parameters of the operations.
- A request field that is absent, not a string, or JS-falsy is encoded as
  none; a present string is some s.
- Fallible operations return an explicit result value, mirroring the
  success/error objects of the source.
-/

namespace PhishProof

/-- Embedding of JS String.prototype.trim: strip leading and trailing
whitespace (implemented over the character list so that it evaluates by
kernel reduction). -/
def strTrim (s : String) : String :=
  String.mk (((s.data.dropWhile Char.isWhitespace).reverse.dropWhile Char.isWhitespace).reverse)

/-! ## Challenge ledger (webauthn.js, in-memory Map) -/

/-- One entry of the challenges Map in webauthn.js: a registration entry
stashes the generated user id, the username and the password alongside the
creation timestamp; an authentication entry stashes the user id and the
creation timestamp. -/
inductive ChallengeData where
  | registration (userID username password : String) (timestamp : Nat)
  | authentication (userId : String) (timestamp : Nat)
deriving DecidableEq

/-- Creation timestamp of a ledger entry (milliseconds). -/
def ChallengeData.timestamp : ChallengeData → Nat
  | .registration _ _ _ t => t
  | .authentication _ t => t

/-- The challenges Map, as an insertion-ordered association list with the
unique-key discipline of a JS Map. -/
abbrev Ledger := List (String × ChallengeData)

/-- Map.get: first entry with the key. -/
def ledgerGet : Ledger → String → Option ChallengeData
  | [], _ => none
  | e :: rest, k => if e.1 = k then some e.2 else ledgerGet rest k

/-- Map.set: replace in place if the key is present, append otherwise. -/
def ledgerSet : Ledger → String → ChallengeData → Ledger
  | [], k, v => [(k, v)]
  | e :: rest, k, v => if e.1 = k then (k, v) :: rest else e :: ledgerSet rest k v

/-- Map.delete: remove the entry with the key. -/
def ledgerDelete : Ledger → String → Ledger
  | [], _ => []
  | e :: rest, k => if e.1 = k then ledgerDelete rest k else e :: ledgerDelete rest k

/-- Challenge TTL used by the sweep: 5 minutes in milliseconds
(webauthn.js cleanupOldChallenges). -/
def MAX_AGE : Nat := 5 * 60 * 1000

/-- cleanupOldChallenges: deletes every entry strictly older than MAX_AGE.
Note the source invokes this only from generateAuthenticationChallenge; the
call in generateRegistrationChallenge is commented out. -/
def cleanupOldChallenges : Ledger → Nat → Ledger
  | [], _ => []
  | e :: rest, now =>
    if now - e.2.timestamp > MAX_AGE then cleanupOldChallenges rest now
    else e :: cleanupOldChallenges rest now

/-! ## Database (database.js, SQLite) -/

/-- A row of the users table. The columns id (TEXT PRIMARY KEY) and
username (TEXT, no UNIQUE constraint) are from the schema in database.js.
The passwordHash, credentialId, credentialPublicKey and credentialCounter
columns are read by webauthn.js and written by the routes; their store
lives in the database module revision missing from src (modelled from the
spec: per-identity password verifier and at most one bound credential with
a signature counter). Balance and timestamps are out of scope. -/
structure UserRow where
  id : String
  username : String
  passwordHash : String
  credentialId : Option String
  credentialPublicKey : Option String
  credentialCounter : Nat
deriving DecidableEq

/-- A row of the audit_events table (user_id, event_type, event_data). -/
structure AuditRow where
  userId : Option String
  eventType : String
  eventData : List (String × String)
deriving DecidableEq

/-- The database state: users and audit events. -/
structure Db where
  users : List UserRow
  auditEvents : List AuditRow
deriving DecidableEq

/-- The CHECK constraint on audit_events.event_type in the database.js
schema: event_type IN (registration, login_success, login_failure,
transfer). -/
def allowedEventTypes : List String :=
  ["registration", "login_success", "login_failure", "transfer"]

/-- createAuditEvent: inserts a row; the insert throws on the CHECK
constraint when the event type is not in the allowed list, which the
wrapper catches, returning success = false and leaving the table
unchanged. -/
def createAuditEvent (db : Db) (userId : Option String) (eventType : String)
    (eventData : List (String × String)) : Db × Bool :=
  if eventType ∈ allowedEventTypes then
    ({ db with auditEvents := db.auditEvents ++ [⟨userId, eventType, eventData⟩] }, true)
  else (db, false)

/-- createUser: INSERT INTO users. The only uniqueness the schema enforces
is the PRIMARY KEY on id; a duplicate id makes the insert throw (caught,
success = false), any other row is accepted. The credential columns are
those passed by the register/verify route; the counter starts at 0. -/
def createUser (db : Db) (id username passwordHash : String)
    (credentialId credentialPublicKey : Option String) : Db × Bool :=
  let row : UserRow := ⟨id, username, passwordHash, credentialId, credentialPublicKey, 0⟩
  if (db.users.find? (fun u => u.id == id)).isSome then (db, false)
  else ({ db with users := db.users ++ [row] }, true)

/-- findUserById: SELECT ... WHERE id = ?. -/
def findUserById (db : Db) (id : String) : Option UserRow :=
  db.users.find? (fun u => u.id == id)

/-- findUserByUsername: SELECT ... WHERE username = ?. -/
def findUserByUsername (db : Db) (username : String) : Option UserRow :=
  db.users.find? (fun u => u.username == username)

/-- Modelled from the spec: updateUserCredentialCounter from the database
module revision missing from src (only its caller webauthn.js is present);
the Credential Store updateCounter operation persisting a new signature
counter for the identity. -/
def updateUserCredentialCounter (db : Db) (id : String) (newCounter : Nat) : Db :=
  let upd := fun (u : UserRow) =>
    if u.id == id then { u with credentialCounter := newCounter } else u
  { db with users := db.users.map upd }

/-- Modelled from the spec: hashPassword (bcrypt) from the database module
revision missing from src; a salted password verifier, modelled as an
injective tagging function. -/
def hashPassword (password : String) : String := "bcrypt$" ++ password

/-- Modelled from the spec: verifyPassword (bcrypt compare) from the
database module revision missing from src; true exactly when the password
matches the stored verifier. -/
def verifyPassword (password storedHash : String) : Bool :=
  hashPassword password == storedHash

/-! ## Server state -/

/-- Combined mutable state of the backend: the SQLite database and the
in-memory challenges Map. -/
structure ServerState where
  db : Db
  challenges : Ledger
deriving DecidableEq

/-! ## WebAuthn flows (webauthn.js) -/

/-- Result of challenge generation. -/
inductive ChalResult where
  | ok (challenge : String)
  | err (msg : String)
deriving DecidableEq

/-- generateRegistrationChallenge: stores a registration entry carrying the
generated userID, the username and the password verbatim, keyed by the
fresh token, stamped with the current time. The cleanupOldChallenges call
is commented out in the source, so no sweep happens here. The library call
generating options is assumed to succeed (its failure path only reports an
error without touching state). -/
def generateRegistrationChallenge (st : ServerState) (username password : String)
    (token userID : String) (now : Nat) : ServerState × ChalResult :=
  ({ st with challenges :=
      ledgerSet st.challenges token (.registration userID username password now) },
   .ok token)

/-- Result of verifyRegistrationCredential. -/
inductive RegVerifyResult where
  | ok (userID username password credentialId credentialPublicKey : String)
  | err (msg : String)
deriving DecidableEq

/-- verifyRegistrationCredential: looks the challenge up (Map.get, a
non-destructive peek), rejects a missing or non-registration entry; then
the SimpleWebAuthn attestation verdict (oracle attVerified, covering
verification.verified and presence of registrationInfo) decides: on
failure the state is untouched — the entry stays in the ledger; on success
the entry is deleted and the stashed userID, username and password are
returned verbatim together with the credential data extracted by the
library (oracle parameters). -/
def verifyRegistrationCredential (st : ServerState) (challenge : String)
    (attVerified : Bool) (credentialId credentialPublicKey : String) :
    ServerState × RegVerifyResult :=
  match ledgerGet st.challenges challenge with
  | some (.registration userID username password _ts) =>
    if attVerified then
      ({ st with challenges := ledgerDelete st.challenges challenge },
       .ok userID username password credentialId credentialPublicKey)
    else (st, .err "Credential verification failed")
  | _ => (st, .err "Invalid or expired challenge")

/-- generateAuthenticationChallenge: requires the user to exist and to have
a stored credential id; stores an authentication entry keyed by the fresh
token, then runs cleanupOldChallenges on the whole ledger. -/
def generateAuthenticationChallenge (st : ServerState) (userId : String)
    (token : String) (now : Nat) : ServerState × ChalResult :=
  match findUserById st.db userId with
  | none => (st, .err "User not found")
  | some user =>
    match user.credentialId with
    | none => (st, .err "User has no registered credential")
    | some _ =>
      let chs := ledgerSet st.challenges token (.authentication userId now)
      ({ st with challenges := cleanupOldChallenges chs now }, .ok token)

/-- Result of verifyAuthenticationCredential. -/
inductive AuthVerifyResult where
  | ok (userId : String)
  | err (msg : String)
deriving DecidableEq

/-- Modelled from the spec: the signature-counter anti-cloning check inside
the SimpleWebAuthn verifyAuthenticationResponse call (library code, not in
src). The spec: a verified assertion must report a counter strictly
greater than the stored one, OR both are exactly 0; otherwise the library
rejects the assertion (PossibleCloning). -/
def counterRejected (reported stored : Nat) : Bool :=
  (reported > 0 || stored > 0) && reported ≤ stored

/-- verifyAuthenticationCredential: looks the challenge up (Map.get, a
non-destructive peek; no expiry check of any kind), rejects a missing or
non-authentication entry; loads the user and its credential material; then
the library verdict: the counter check (counterRejected) throws, which the
source catches, leaving the state untouched; a failed assertion signature
(oracle assertionValid) likewise leaves the state untouched; on success the
stored counter is updated to the reported newCounter and only then is the
challenge deleted. -/
def verifyAuthenticationCredential (st : ServerState) (challenge : String)
    (reportedCounter : Nat) (assertionValid : Bool) :
    ServerState × AuthVerifyResult :=
  match ledgerGet st.challenges challenge with
  | some (.authentication userId _ts) =>
    (match findUserById st.db userId with
     | none => (st, .err "User not found")
     | some user =>
       match user.credentialId, user.credentialPublicKey with
       | some _, some _ =>
         if counterRejected reportedCounter user.credentialCounter then
           (st, .err "Response counter value was lower than expected")
         else if assertionValid then
           ({ db := updateUserCredentialCounter st.db userId reportedCounter,
              challenges := ledgerDelete st.challenges challenge }, .ok userId)
         else (st, .err "Authentication verification failed")
       | _, _ => (st, .err "User has no registered credential"))
  | _ => (st, .err "Invalid or expired challenge")

/-! ## Session issuer (auth.js, jsonwebtoken) -/

/-- JWT claims produced by generateToken: userId, username, issued-at,
expiry, issuer and audience. Times are in seconds. -/
structure JwtClaims where
  userId : String
  username : String
  iat : Nat
  exp : Nat
  iss : String
  aud : String
deriving DecidableEq

/-- Modelled from the spec: the HMAC signature of the jsonwebtoken library
(external dependency); tamper-evident — it determines, and is determined
by, the secret together with the exact claims. -/
def jwtSignature (secret : String) (c : JwtClaims) : String :=
  "HS256." ++ secret ++ "." ++ c.userId ++ "." ++ c.username ++ "." ++
    toString c.iat ++ "." ++ toString c.exp ++ "." ++ c.iss ++ "." ++ c.aud

/-- A signed session token: claims plus signature. -/
structure SignedToken where
  claims : JwtClaims
  signature : String
deriving DecidableEq

/-- JWT_CONFIG.issuer. -/
def JWT_ISSUER : String := "phishproof-mfa"

/-- JWT_CONFIG.audience. -/
def JWT_AUDIENCE : String := "phishproof-mfa-users"

/-- JWT_CONFIG.expiresIn: 30 minutes, in seconds. -/
def JWT_EXPIRES_IN : Nat := 30 * 60

/-- generateToken: signs a payload with iat = now (seconds) and, via the
expiresIn option, exp = iat + 1800, with the configured issuer and
audience. -/
def generateToken (secret userId username : String) (nowSec : Nat) : SignedToken :=
  let claims : JwtClaims :=
    ⟨userId, username, nowSec, nowSec + JWT_EXPIRES_IN, JWT_ISSUER, JWT_AUDIENCE⟩
  ⟨claims, jwtSignature secret claims⟩

/-- Result of verifyToken. -/
inductive TokenVerifyResult where
  | ok (claims : JwtClaims)
  | err (msg : String)
deriving DecidableEq

/-- verifyToken: jwt.verify checks the signature, then expiry (expired when
the clock reaches exp), then issuer and audience; auth.js maps a
TokenExpiredError to the message Token expired and other verification
errors to Invalid token format. -/
def verifyToken (secret : String) (t : SignedToken) (nowSec : Nat) : TokenVerifyResult :=
  if t.signature = jwtSignature secret t.claims then
    if t.claims.exp ≤ nowSec then .err "Token expired"
    else if t.claims.iss = JWT_ISSUER ∧ t.claims.aud = JWT_AUDIENCE then .ok t.claims
    else .err "Invalid token format"
  else .err "Invalid token format"

/-! ## HTTP routes (routes.js) -/

/-- The JSON response of a route, restricted to the fields the claims are
about: HTTP status, the error message of a failure body, and the
challenge / userId / session token of a success body. -/
structure Response where
  status : Nat
  error : Option String
  challenge : Option String
  userId : Option String
  token : Option SignedToken
deriving DecidableEq

/-- A failure response: status plus error message, nothing else. -/
def Response.fail (status : Nat) (msg : String) : Response :=
  ⟨status, some msg, none, none, none⟩

/-- POST /api/webauthn/register/challenge. Validation order of the source:
username present and nonempty after trim, then password present with
length at least 8, then the duplicate-username pre-check
(findUserByUsername), then challenge generation and a
registration_challenge audit event (an event type the schema CHECK
rejects; the route ignores the result). -/
def registerChallengeRoute (st : ServerState) (username password : Option String)
    (token userID : String) (now : Nat) : ServerState × Response :=
  match username with
  | none => (st, Response.fail 400 "Valid username is required")
  | some un =>
    if (strTrim un).length = 0 then (st, Response.fail 400 "Valid username is required")
    else
      match password with
      | none => (st, Response.fail 400 "Password must be at least 8 characters long")
      | some pw =>
        if pw.length < 8 then
          (st, Response.fail 400 "Password must be at least 8 characters long")
        else
          match findUserByUsername st.db (strTrim un) with
          | some _ => (st, Response.fail 409 "Username already exists")
          | none =>
            let r := generateRegistrationChallenge st (strTrim un) pw token userID now
            let a := createAuditEvent r.1.db none "registration_challenge"
              [("username", (strTrim un))]
            ({ r.1 with db := a.1 }, ⟨200, none, some token, none, none⟩)

/-- POST /api/webauthn/register/verify. Validates the presence of the
credential object and challenge string, verifies the attestation, then on
success hashes the stashed password and persists the new user with the
credential data; audits registration_failed (CHECK-rejected) on failure
and registration (allowed) on success. -/
def registerVerifyRoute (st : ServerState) (challenge : Option String)
    (credProvided attVerified : Bool) (credentialId credentialPublicKey : String) :
    ServerState × Response :=
  if credProvided = false then
    (st, Response.fail 400 "Valid credential object is required")
  else
    match challenge with
    | none => (st, Response.fail 400 "Challenge is required")
    | some ch =>
      match verifyRegistrationCredential st ch attVerified credentialId credentialPublicKey with
      | (st1, .err msg) =>
        let a := createAuditEvent st1.db none "registration_failed" [("error", msg)]
        ({ st1 with db := a.1 }, Response.fail 400 msg)
      | (st1, .ok userID username password cid cpk) =>
        match createUser st1.db userID username (hashPassword password) (some cid) (some cpk) with
        | (db1, false) =>
          ({ st1 with db := db1 }, Response.fail 500 "Failed to create user account")
        | (db1, true) =>
          let a := createAuditEvent db1 (some userID) "registration"
            [("username", username), ("credentialId", cid)]
          ({ st1 with db := a.1 }, ⟨200, none, none, some userID, none⟩)

/-- POST /api/auth/login. Validates the username (present, nonempty after
trim) and password (present, nonempty); looks the user up by trimmed
username — on a miss audits login_failure with reason user_not_found and
returns 401 Invalid username or password; on a password mismatch audits
login_failure with reason invalid_password and returns the identical 401
response; on a match issues an authentication challenge for the user and
audits password_verified (an event type the schema CHECK rejects; the
route ignores the result). -/
def loginRoute (st : ServerState) (username password : Option String)
    (token : String) (now : Nat) : ServerState × Response :=
  match username with
  | none => (st, Response.fail 400 "Valid username is required")
  | some un =>
    if (strTrim un).length = 0 then (st, Response.fail 400 "Valid username is required")
    else
      match password with
      | none => (st, Response.fail 400 "Password is required")
      | some pw =>
        if pw.length = 0 then (st, Response.fail 400 "Password is required")
        else
          match findUserByUsername st.db (strTrim un) with
          | none =>
            let a := createAuditEvent st.db none "login_failure"
              [("username", (strTrim un)), ("reason", "user_not_found")]
            ({ st with db := a.1 }, Response.fail 401 "Invalid username or password")
          | some user =>
            if verifyPassword pw user.passwordHash then
              match generateAuthenticationChallenge st user.id token now with
              | (st1, .err _) =>
                (st1, Response.fail 500 "Failed to generate authentication challenge")
              | (st1, .ok c) =>
                let a := createAuditEvent st1.db (some user.id) "password_verified"
                  [("username", (strTrim un))]
                ({ st1 with db := a.1 }, ⟨200, none, some c, some user.id, none⟩)
            else
              let a := createAuditEvent st.db (some user.id) "login_failure"
                [("username", (strTrim un)), ("reason", "invalid_password")]
              ({ st with db := a.1 }, Response.fail 401 "Invalid username or password")

/-- Shared tail of POST /api/webauthn/auth/challenge once a target user id
is resolved: generate the challenge, audit authentication_challenge
(CHECK-rejected, ignored), respond with the challenge. -/
def authChallengeFinish (st : ServerState) (targetUserId token : String)
    (now : Nat) : ServerState × Response :=
  match generateAuthenticationChallenge st targetUserId token now with
  | (st1, .err _) =>
    (st1, Response.fail 500 "Failed to generate authentication challenge")
  | (st1, .ok c) =>
    let a := createAuditEvent st1.db (some targetUserId) "authentication_challenge" []
    ({ st1 with db := a.1 }, ⟨200, none, some c, some targetUserId, none⟩)

/-- POST /api/webauthn/auth/challenge. Accepts exactly one of userId or
username, resolves the target user (404 on a miss), and issues an
authentication challenge — with no password verification anywhere on this
path. -/
def authChallengeRoute (st : ServerState) (userId username : Option String)
    (token : String) (now : Nat) : ServerState × Response :=
  match userId, username with
  | none, none => (st, Response.fail 400 "Either userId or username is required (not both)")
  | some _, some _ => (st, Response.fail 400 "Either userId or username is required (not both)")
  | none, some un =>
    if (strTrim un).length = 0 then (st, Response.fail 400 "Valid username is required")
    else
      match findUserByUsername st.db (strTrim un) with
      | none => (st, Response.fail 404 "User not found")
      | some user => authChallengeFinish st user.id token now
  | some uid, none =>
    if (strTrim uid).length = 0 then (st, Response.fail 400 "Valid userId is required")
    else
      match findUserById st.db (strTrim uid) with
      | none => (st, Response.fail 404 "User not found")
      | some _ => authChallengeFinish st (strTrim uid) token now

/-- POST /api/webauthn/auth/verify. Validates the presence of the
credential object and challenge string, verifies the assertion (consuming
the challenge on success), then loads the user, mints a JWT session token
(iat in seconds from the millisecond clock) and audits
authentication_success (CHECK-rejected) and login_success (allowed); on a
verification failure audits authentication_failed (CHECK-rejected) and
returns 401. -/
def authVerifyRoute (st : ServerState) (challenge : Option String)
    (credProvided : Bool) (reportedCounter : Nat) (assertionValid : Bool)
    (secret : String) (nowMs : Nat) : ServerState × Response :=
  if credProvided = false then
    (st, Response.fail 400 "Valid credential object is required")
  else
    match challenge with
    | none => (st, Response.fail 400 "Challenge is required")
    | some ch =>
      match verifyAuthenticationCredential st ch reportedCounter assertionValid with
      | (st1, .err msg) =>
        let a := createAuditEvent st1.db none "authentication_failed" [("error", msg)]
        ({ st1 with db := a.1 }, Response.fail 401 msg)
      | (st1, .ok uid) =>
        match findUserById st1.db uid with
        | none => (st1, Response.fail 500 "Failed to retrieve user details")
        | some user =>
          let tok := generateToken secret uid user.username (nowMs / 1000)
          let a1 := createAuditEvent st1.db (some uid) "authentication_success" []
          let a2 := createAuditEvent a1.1 (some uid) "login_success"
            [("username", user.username)]
          ({ st1 with db := a2.1 }, ⟨200, none, none, some uid, some tok⟩)

/-! ## Operations and traces -/

/-- One externally triggerable operation of the authentication core, with
its oracle inputs. -/
inductive Op where
  | registerChallenge (username password : Option String) (token userID : String) (now : Nat)
  | registerVerify (challenge : Option String) (credProvided attVerified : Bool)
      (credentialId credentialPublicKey : String)
  | login (username password : Option String) (token : String) (now : Nat)
  | authChallenge (userId username : Option String) (token : String) (now : Nat)
  | authVerify (challenge : Option String) (credProvided : Bool)
      (reportedCounter : Nat) (assertionValid : Bool) (secret : String) (now : Nat)
deriving DecidableEq

/-- Dispatch one operation to its route handler. -/
def step (st : ServerState) : Op → ServerState × Response
  | .registerChallenge u p t uid now => registerChallengeRoute st u p t uid now
  | .registerVerify ch cp av cid cpk => registerVerifyRoute st ch cp av cid cpk
  | .login u p t now => loginRoute st u p t now
  | .authChallenge uid un t now => authChallengeRoute st uid un t now
  | .authVerify ch cp rc av sec now => authVerifyRoute st ch cp rc av sec now

/-- Whether an operation is the password-verification step
(POST /api/auth/login). -/
def Op.isLogin : Op → Bool
  | .login _ _ _ _ => true
  | _ => false

/-- Whether an operation is the password-less challenge endpoint
(POST /api/webauthn/auth/challenge). -/
def Op.isAuthChallenge : Op → Bool
  | .authChallenge _ _ _ _ => true
  | _ => false

/-- Run a list of operations from a state, collecting the responses. -/
def runOps (st : ServerState) : List Op → ServerState × List Response
  | [] => (st, [])
  | op :: rest =>
    let r := step st op
    let rr := runOps r.1 rest
    (rr.1, r.2 :: rr.2)

/-! ## Concrete instances used by witnesses and counterexamples -/

/-- A registered user: alice, with the verifier of password123 and a bound
credential whose stored counter is 0. -/
def aliceRow : UserRow :=
  ⟨"u1", "alice", hashPassword "password123", some "cid", some "cpk", 0⟩

/-- A server state holding exactly the registered user alice and an empty
challenge ledger. -/
def bankState : ServerState := ⟨⟨[aliceRow], []⟩, []⟩

/-- A server state with a pending registration challenge rc1 for bob. -/
def regPendingState : ServerState :=
  ⟨⟨[], []⟩, [("rc1", .registration "u9" "bob" "longpassword1" 0)]⟩

/-- A server state with alice registered and a pending authentication
challenge ac1 for her, created at time 0. -/
def staleAuthState : ServerState :=
  ⟨⟨[aliceRow], []⟩, [("ac1", .authentication "u1" 0)]⟩

/-- The registered user alice with a stored signature counter of 5. -/
def aliceRow5 : UserRow :=
  ⟨"u1", "alice", hashPassword "password123", some "cid", some "cpk", 5⟩

/-- A server state with alice at counter 5 and a pending authentication
challenge ac5 for her. -/
def cloneState : ServerState :=
  ⟨⟨[aliceRow5], []⟩, [("ac5", .authentication "u1" 0)]⟩

/-- A server state with alice registered and two pending authentication
challenges: ac1 created at time 0 and y1 created at time 250000. -/
def sweepDemoState : ServerState :=
  ⟨⟨[aliceRow], []⟩,
    [("ac1", .authentication "u1" 0), ("y1", .authentication "u1" 250000)]⟩

/-- A trace that obtains a session token without any password-verification
step: the password-less challenge endpoint followed by assertion
verification. -/
def noPasswordTrace : List Op :=
  [ .authChallenge none (some "alice") "chal1" 0,
    .authVerify (some "chal1") true 1 true "secret" 5000 ]

/-! ## Helper lemmas about the ledger and the store -/

theorem ledgerGet_ledgerSet_self (m : Ledger) (k : String) (v : ChallengeData) :
    ledgerGet (ledgerSet m k v) k = some v := by
  induction m with
  | nil => simp [ledgerSet, ledgerGet]
  | cons e rest ih =>
    by_cases h : e.1 = k
    · simp [ledgerSet, h, ledgerGet]
    · simp [ledgerSet, h, ledgerGet, ih]

theorem ledgerGet_ledgerSet_ne (m : Ledger) (k : String) (v : ChallengeData)
    (k' : String) (h : k' ≠ k) :
    ledgerGet (ledgerSet m k v) k' = ledgerGet m k' := by
  induction m with
  | nil => simp [ledgerSet, ledgerGet, Ne.symm h]
  | cons e rest ih =>
    by_cases he : e.1 = k
    · subst he
      simp [ledgerSet, ledgerGet, Ne.symm h]
    · simp [ledgerSet, he, ledgerGet, ih]

theorem ledgerGet_ledgerDelete_self (m : Ledger) (k : String) :
    ledgerGet (ledgerDelete m k) k = none := by
  induction m with
  | nil => simp [ledgerDelete, ledgerGet]
  | cons e rest ih =>
    by_cases h : e.1 = k
    · simp [ledgerDelete, h, ih]
    · simp [ledgerDelete, h, ledgerGet, ih]

theorem ledgerGet_ledgerDelete_ne (m : Ledger) (k k' : String) (h : k' ≠ k) :
    ledgerGet (ledgerDelete m k) k' = ledgerGet m k' := by
  induction m with
  | nil => simp [ledgerDelete]
  | cons e rest ih =>
    by_cases he : e.1 = k
    · subst he
      simp [ledgerDelete, ledgerGet, Ne.symm h, ih]
    · simp [ledgerDelete, he, ledgerGet, ih]

theorem mem_cleanupOldChallenges (m : Ledger) (now : Nat) (p : String × ChallengeData) :
    p ∈ cleanupOldChallenges m now ↔ p ∈ m ∧ now - p.2.timestamp ≤ MAX_AGE := by
  induction m with
  | nil => simp [cleanupOldChallenges]
  | cons e rest ih =>
    by_cases h : now - e.2.timestamp > MAX_AGE
    · simp only [cleanupOldChallenges, if_pos h, ih, List.mem_cons]
      constructor
      · exact fun hp => ⟨Or.inr hp.1, hp.2⟩
      · rintro ⟨hp | hp, hage⟩
        · subst hp
          omega
        · exact ⟨hp, hage⟩
    · simp only [cleanupOldChallenges, if_neg h, List.mem_cons, ih]
      constructor
      · rintro (hp | hp)
        · subst hp
          exact ⟨Or.inl rfl, by omega⟩
        · exact ⟨Or.inr hp.1, hp.2⟩
      · rintro ⟨hp | hp, hage⟩
        · exact Or.inl hp
        · exact Or.inr ⟨hp, hage⟩

theorem mem_ledgerSet_of_ne (m : Ledger) (k : String) (v : ChallengeData)
    (p : String × ChallengeData) (hp : p ∈ m) (hk : p.1 ≠ k) :
    p ∈ ledgerSet m k v := by
  induction m with
  | nil => simp at hp
  | cons e rest ih =>
    by_cases he : e.1 = k
    · simp only [ledgerSet, if_pos he, List.mem_cons]
      rcases List.mem_cons.mp hp with hp | hp
      · subst hp
        exact absurd he hk
      · exact Or.inr hp
    · simp only [ledgerSet, if_neg he, List.mem_cons]
      rcases List.mem_cons.mp hp with hp | hp
      · exact Or.inl hp
      · exact Or.inr (ih hp)

theorem find_update_aux (l : List UserRow) (id : String) (n : Nat) :
    (l.map (fun u => if u.id == id then { u with credentialCounter := n } else u)).find?
        (fun u => u.id == id)
      = (l.find? (fun u => u.id == id)).map (fun u => { u with credentialCounter := n }) := by
  induction l with
  | nil => rfl
  | cons u rest ih =>
    by_cases h : u.id = id
    · have hb : (u.id == id) = true := by simp [h]
      have hb2 : ((if (u.id == id) = true then
          ({ u with credentialCounter := n } : UserRow) else u).id == id) = true := by
        simp [hb]
      simp only [List.map_cons, List.find?, hb, hb2]
      simp [hb]
    · have hb : (u.id == id) = false := by simp [h]
      simp only [List.map_cons, List.find?]
      rw [if_neg (by simp [h] : ¬ (u.id == id) = true)]
      simp only [hb]
      exact ih

theorem findUserById_updateUserCredentialCounter (db : Db) (id : String) (n : Nat) :
    findUserById (updateUserCredentialCounter db id n) id
      = (findUserById db id).map (fun u => { u with credentialCounter := n }) := by
  simp only [findUserById, updateUserCredentialCounter]
  exact find_update_aux db.users id n

theorem ledgerGet_set_registration_auth (m : Ledger) (t uID un pw : String)
    (now : Nat) (k : String) (uid : String) (ts : Nat)
    (h : ledgerGet (ledgerSet m t (.registration uID un pw now)) k
      = some (.authentication uid ts)) :
    ledgerGet m k = some (.authentication uid ts) := by
  by_cases hk : k = t
  · subst hk
    rw [ledgerGet_ledgerSet_self] at h
    simp at h
  · rwa [ledgerGet_ledgerSet_ne _ _ _ _ hk] at h

theorem ledgerGet_delete_mono (m : Ledger) (t k : String) (v : ChallengeData)
    (h : ledgerGet (ledgerDelete m t) k = some v) :
    ledgerGet m k = some v := by
  by_cases hk : k = t
  · subst hk
    rw [ledgerGet_ledgerDelete_self] at h
    cases h
  · rwa [ledgerGet_ledgerDelete_ne _ _ _ hk] at h

theorem verifyRegistrationCredential_err_state (st : ServerState) (ch : String)
    (av : Bool) (cid cpk : String) (st1 : ServerState) (m : String)
    (h : verifyRegistrationCredential st ch av cid cpk = (st1, .err m)) :
    st1 = st := by
  unfold verifyRegistrationCredential at h
  repeat' split at h
  all_goals
    first
      | (simp only [Prod.mk.injEq] at h
         exact h.1.symm)
      | simp at h

theorem verifyRegistrationCredential_ok_state (st : ServerState) (ch : String)
    (av : Bool) (cid cpk : String) (st1 : ServerState)
    (uID un pw cid2 cpk2 : String)
    (h : verifyRegistrationCredential st ch av cid cpk
      = (st1, .ok uID un pw cid2 cpk2)) :
    st1.challenges = ledgerDelete st.challenges ch ∧ st1.db = st.db := by
  unfold verifyRegistrationCredential at h
  repeat' split at h
  all_goals
    first
      | (simp only [Prod.mk.injEq, RegVerifyResult.ok.injEq] at h
         obtain ⟨h1, h2, h3, h4, h5, h6⟩ := h
         rw [← h1]
         exact ⟨rfl, rfl⟩)
      | simp at h

theorem verifyAuthenticationCredential_err_state (st : ServerState) (ch : String)
    (rc : Nat) (av : Bool) (st1 : ServerState) (m : String)
    (h : verifyAuthenticationCredential st ch rc av = (st1, .err m)) :
    st1 = st := by
  unfold verifyAuthenticationCredential at h
  repeat' split at h
  all_goals
    first
      | (simp only [Prod.mk.injEq] at h
         exact h.1.symm)
      | simp at h

theorem verifyAuthenticationCredential_ok_state (st : ServerState) (ch : String)
    (rc : Nat) (av : Bool) (st1 : ServerState) (uid : String)
    (h : verifyAuthenticationCredential st ch rc av = (st1, .ok uid)) :
    st1.challenges = ledgerDelete st.challenges ch := by
  unfold verifyAuthenticationCredential at h
  repeat' split at h
  all_goals
    first
      | (simp only [Prod.mk.injEq, AuthVerifyResult.ok.injEq] at h
         obtain ⟨h1, h2⟩ := h
         subst h2
         rw [← h1])
      | simp at h

theorem verifyAuthenticationCredential_ok_inv (st : ServerState) (ch : String)
    (rc : Nat) (av : Bool) (st1 : ServerState) (uid : String)
    (h : verifyAuthenticationCredential st ch rc av = (st1, .ok uid)) :
    ∃ ts user cidv cpkv, ledgerGet st.challenges ch = some (.authentication uid ts)
      ∧ findUserById st.db uid = some user
      ∧ user.credentialId = some cidv
      ∧ user.credentialPublicKey = some cpkv
      ∧ ¬ counterRejected rc user.credentialCounter = true
      ∧ av = true := by
  unfold verifyAuthenticationCredential at h
  repeat' split at h
  all_goals try simp at h
  obtain ⟨h1, h2⟩ := h
  cases h2
  rename_i hcid hcpk hcr hav hget hfind
  exact ⟨_, _, _, _, hget, hfind, hcid, hcpk, hcr, hav⟩

theorem consume_missing_registration (st : ServerState) (ch : String)
    (av : Bool) (cid cpk : String)
    (h : ledgerGet st.challenges ch = none) :
    verifyRegistrationCredential st ch av cid cpk
      = (st, .err "Invalid or expired challenge") := by
  unfold verifyRegistrationCredential
  rw [h]

theorem consume_missing_authentication (st : ServerState) (ch : String)
    (rc : Nat) (av : Bool)
    (h : ledgerGet st.challenges ch = none) :
    verifyAuthenticationCredential st ch rc av
      = (st, .err "Invalid or expired challenge") := by
  unfold verifyAuthenticationCredential
  rw [h]

theorem registerChallengeRoute_no_new_auth (st : ServerState) (u p : Option String)
    (t uID : String) (now : Nat) (k uid : String) (ts : Nat)
    (h : ledgerGet (registerChallengeRoute st u p t uID now).1.challenges k
      = some (.authentication uid ts)) :
    ledgerGet st.challenges k = some (.authentication uid ts) := by
  unfold registerChallengeRoute at h
  repeat' split at h
  all_goals
    first
      | exact h
      | exact ledgerGet_set_registration_auth _ _ _ _ _ _ _ _ _ h

theorem registerVerifyRoute_challenge_mono (st : ServerState) (ch : Option String)
    (cp av : Bool) (cid cpk : String) (k : String) (v : ChallengeData)
    (h : ledgerGet (registerVerifyRoute st ch cp av cid cpk).1.challenges k = some v) :
    ledgerGet st.challenges k = some v := by
  unfold registerVerifyRoute at h
  split at h
  · exact h
  · split at h
    · exact h
    · split at h
      next st1 msg heq =>
        rw [verifyRegistrationCredential_err_state _ _ _ _ _ _ _ heq] at h
        exact h
      next st1 uID un pw cid2 cpk2 heq =>
        have hc := (verifyRegistrationCredential_ok_state _ _ _ _ _ _ _ _ _ _ _ heq).1
        split at h
        · rw [hc] at h
          exact ledgerGet_delete_mono _ _ _ _ h
        · rw [hc] at h
          exact ledgerGet_delete_mono _ _ _ _ h

theorem authVerifyRoute_challenge_mono (st : ServerState) (ch : Option String)
    (cp : Bool) (rc : Nat) (av : Bool) (sec : String) (now : Nat)
    (k : String) (v : ChallengeData)
    (h : ledgerGet (authVerifyRoute st ch cp rc av sec now).1.challenges k = some v) :
    ledgerGet st.challenges k = some v := by
  unfold authVerifyRoute at h
  split at h
  · exact h
  · split at h
    · exact h
    · split at h
      next st1 msg heq =>
        rw [verifyAuthenticationCredential_err_state _ _ _ _ _ _ heq] at h
        exact h
      next st1 uid heq =>
        have hc := verifyAuthenticationCredential_ok_state _ _ _ _ _ _ heq
        split at h
        · rw [hc] at h
          exact ledgerGet_delete_mono _ _ _ _ h
        · rw [hc] at h
          exact ledgerGet_delete_mono _ _ _ _ h

theorem authVerifyRoute_token_inv (st : ServerState) (c : String)
    (cp : Bool) (rc : Nat) (av : Bool) (sec : String) (now : Nat)
    (h : (authVerifyRoute st (some c) cp rc av sec now).2.token.isSome = true) :
    ∃ uid ts user cidv cpkv, ledgerGet st.challenges c = some (.authentication uid ts)
      ∧ findUserById st.db uid = some user
      ∧ user.credentialId = some cidv
      ∧ user.credentialPublicKey = some cpkv
      ∧ ¬ counterRejected rc user.credentialCounter = true
      ∧ av = true := by
  unfold authVerifyRoute at h
  split at h
  · simp [Response.fail] at h
  · split at h
    · simp [Response.fail] at h
    next ch heq0 =>
      injection heq0 with hcc
      subst hcc
      split at h
      next st1 msg heq =>
        simp [Response.fail] at h
      next st1 uid heq =>
        split at h
        · simp [Response.fail] at h
        · obtain ⟨ts, user, cidv, cpkv, hget, hfind, hcid, hcpk, hcr, hav⟩ :=
            verifyAuthenticationCredential_ok_inv _ _ _ _ _ _ heq
          exact ⟨uid, ts, user, cidv, cpkv, hget, hfind, hcid, hcpk, hcr, hav⟩

/-! ## Claim theorems -/

/-- Claim C1, counterexample: challenges are NOT single-use regardless of
verification outcome. Starting from a state with a pending registration
challenge rc1, a first consume attempt whose attestation verification
fails leaves the ledger entry in place (the state is unchanged), and a
second consume attempt with the very same token then succeeds instead of
failing with the not-found error. -/
theorem c1_counterexample :
    verifyRegistrationCredential regPendingState "rc1" false "cid" "cpk"
      = (regPendingState, .err "Credential verification failed")
    ∧ (verifyRegistrationCredential
        (verifyRegistrationCredential regPendingState "rc1" false "cid" "cpk").1
        "rc1" true "cid" "cpk").2
      = .ok "u9" "bob" "longpassword1" "cid" "cpk" :=
  ⟨by decide, by decide⟩

/-- Claim C1, amended: a challenge is consumed only by a successful
verification. Any failed verifyRegistrationCredential or
verifyAuthenticationCredential call leaves the state (and so the ledger
entry) unchanged — lookups are non-destructive peeks, so the same token can
be retried; after a successful call the entry is removed and every second
attempt with the same token fails with the generic
invalid-or-expired-challenge error. -/
theorem c1_single_use_amended :
    (∀ st ch av cid cpk st1 m,
      verifyRegistrationCredential st ch av cid cpk = (st1, RegVerifyResult.err m) →
        st1 = st)
    ∧ (∀ st ch rc av st1 m,
      verifyAuthenticationCredential st ch rc av = (st1, AuthVerifyResult.err m) →
        st1 = st)
    ∧ (∀ st ch av cid cpk st1 uID un pw cid2 cpk2,
      verifyRegistrationCredential st ch av cid cpk = (st1, .ok uID un pw cid2 cpk2) →
        ledgerGet st1.challenges ch = none
        ∧ (∀ av2 cid3 cpk3, verifyRegistrationCredential st1 ch av2 cid3 cpk3
            = (st1, .err "Invalid or expired challenge"))
        ∧ (∀ rc2 av2, verifyAuthenticationCredential st1 ch rc2 av2
            = (st1, .err "Invalid or expired challenge")))
    ∧ (∀ st ch rc av st1 uid,
      verifyAuthenticationCredential st ch rc av = (st1, .ok uid) →
        ledgerGet st1.challenges ch = none
        ∧ (∀ av2 cid3 cpk3, verifyRegistrationCredential st1 ch av2 cid3 cpk3
            = (st1, .err "Invalid or expired challenge"))
        ∧ (∀ rc2 av2, verifyAuthenticationCredential st1 ch rc2 av2
            = (st1, .err "Invalid or expired challenge"))) := by
  refine ⟨?_, ?_, ?_, ?_⟩
  · intro st ch av cid cpk st1 m h
    exact verifyRegistrationCredential_err_state _ _ _ _ _ _ _ h
  · intro st ch rc av st1 m h
    exact verifyAuthenticationCredential_err_state _ _ _ _ _ _ h
  · intro st ch av cid cpk st1 uID un pw cid2 cpk2 h
    have hc := (verifyRegistrationCredential_ok_state _ _ _ _ _ _ _ _ _ _ _ h).1
    have hnone : ledgerGet st1.challenges ch = none := by
      rw [hc]
      exact ledgerGet_ledgerDelete_self _ _
    exact ⟨hnone,
      fun av2 cid3 cpk3 => consume_missing_registration _ _ _ _ _ hnone,
      fun rc2 av2 => consume_missing_authentication _ _ _ _ hnone⟩
  · intro st ch rc av st1 uid h
    have hc := verifyAuthenticationCredential_ok_state _ _ _ _ _ _ h
    have hnone : ledgerGet st1.challenges ch = none := by
      rw [hc]
      exact ledgerGet_ledgerDelete_self _ _
    exact ⟨hnone,
      fun av2 cid3 cpk3 => consume_missing_registration _ _ _ _ _ hnone,
      fun rc2 av2 => consume_missing_authentication _ _ _ _ hnone⟩

/-- Witness for the amended C1 theorem at concrete inputs: a successful
consume of rc1 empties the ledger and a retry fails with the generic
invalid-or-expired-challenge error. -/
theorem c1_single_use_amended_witness :
    ledgerGet (⟨⟨[], []⟩, []⟩ : ServerState).challenges "rc1" = none
    ∧ verifyAuthenticationCredential ⟨⟨[], []⟩, []⟩ "rc1" 1 true
        = (⟨⟨[], []⟩, []⟩, .err "Invalid or expired challenge") := by
  have hp := c1_single_use_amended.2.2.1 regPendingState "rc1" true "cid" "cpk"
      ⟨⟨[], []⟩, []⟩ "u9" "bob" "longpassword1" "cid" "cpk" (by decide)
  exact ⟨hp.1, hp.2.2 1 true⟩

/-- Claim C2, counterexample: a session token is minted without any
password verification in the attempt. Starting from a state with the
registered user alice, the trace consisting of the password-less
auth/challenge endpoint followed by auth/verify contains no login
(password) step, yet both calls succeed and the second response carries a
session token. -/
theorem c2_counterexample :
    noPasswordTrace.all (fun o => !o.isLogin) = true
    ∧ (runOps bankState noPasswordTrace).2.map Response.status = [200, 200]
    ∧ ((runOps bankState noPasswordTrace).2[1]?).map (fun r => r.token.isSome)
        = some true :=
  ⟨by decide, by decide, by decide⟩

/-- Claim C2, amended: auth/verify mints a session token only after a
successful assertion verification that consumed an authentication-purpose
challenge bound to an existing user with stored credential material and a
passing counter check; and no operation other than the login route and the
password-less auth/challenge route ever adds an authentication-purpose
entry to the ledger — so the password step is bypassable via
auth/challenge, but the possession factor is always required. -/
theorem c2_session_minting_amended :
    (∀ st c cp rc av sec now,
      (authVerifyRoute st (some c) cp rc av sec now).2.token.isSome = true →
      ∃ uid ts user cidv cpkv,
        ledgerGet st.challenges c = some (.authentication uid ts)
        ∧ findUserById st.db uid = some user
        ∧ user.credentialId = some cidv
        ∧ user.credentialPublicKey = some cpkv
        ∧ ¬ counterRejected rc user.credentialCounter = true
        ∧ av = true)
    ∧ (∀ st op, op.isLogin = false → op.isAuthChallenge = false →
        ∀ k uid ts,
          ledgerGet (step st op).1.challenges k = some (.authentication uid ts) →
          ledgerGet st.challenges k = some (.authentication uid ts)) := by
  constructor
  · intro st c cp rc av sec now h
    exact authVerifyRoute_token_inv _ _ _ _ _ _ _ h
  · intro st op h1 h2 k uid ts h
    cases op with
    | registerChallenge u p t uID now =>
      exact registerChallengeRoute_no_new_auth _ _ _ _ _ _ _ _ _ h
    | registerVerify ch cp av cid cpk =>
      exact registerVerifyRoute_challenge_mono _ _ _ _ _ _ _ _ h
    | login u p t now => simp [Op.isLogin] at h1
    | authChallenge uid2 un t now => simp [Op.isAuthChallenge] at h2
    | authVerify ch cp rc2 av2 sec now =>
      exact authVerifyRoute_challenge_mono _ _ _ _ _ _ _ _ _ h

/-- Witness for the amended C2 theorem: a concrete minting state satisfies
the inversion, and a non-login, non-auth-challenge operation preserves an
authentication entry. -/
theorem c2_session_minting_amended_witness :
    (∃ uid ts user cidv cpkv,
      ledgerGet staleAuthState.challenges "ac1" = some (.authentication uid ts)
      ∧ findUserById staleAuthState.db uid = some user
      ∧ user.credentialId = some cidv
      ∧ user.credentialPublicKey = some cpkv
      ∧ ¬ counterRejected 1 user.credentialCounter = true
      ∧ true = true)
    ∧ ledgerGet staleAuthState.challenges "ac1" = some (.authentication "u1" 0) := by
  refine ⟨c2_session_minting_amended.1 staleAuthState "ac1" true 1 true "secret" 5000
      (by decide), ?_⟩
  exact c2_session_minting_amended.2 staleAuthState
    (.registerVerify (some "zzz") true true "c" "p") (by decide) (by decide)
    "ac1" "u1" 0 (by decide)

/-- Claim C3, counterexample: expiry is not enforced at consume time. The
entry ac1 was created at time 0; at time 301000 its age exceeds the
5-minute TTL, yet consuming it succeeds — indeed verifyAuthenticationCredential
takes no clock at all, so no consume attempt can fail for expiry
reasons. -/
theorem c3_counterexample :
    MAX_AGE < 301000 - ChallengeData.timestamp (.authentication "u1" 0)
    ∧ (verifyAuthenticationCredential staleAuthState "ac1" 1 true).2 = .ok "u1" :=
  ⟨by decide, by decide⟩

/-- Claim C3, amended: the 5-minute TTL is enforced only by the sweep run
while issuing an authentication challenge, never at consume time: a
still-present challenge older than TTL consumes successfully (all other
conditions holding); after an issuance at time now, every surviving entry
has age at most TTL, entries within TTL and distinct from the fresh token
are retained, and consuming a token that is no longer present fails with
the generic invalid-or-expired-challenge error. -/
theorem c3_expiry_amended :
    (∀ st ch uid ts now rc user cidv cpkv,
      ledgerGet st.challenges ch = some (.authentication uid ts) →
      MAX_AGE < now - ts →
      findUserById st.db uid = some user →
      user.credentialId = some cidv →
      user.credentialPublicKey = some cpkv →
      ¬ counterRejected rc user.credentialCounter = true →
      (verifyAuthenticationCredential st ch rc true).2 = .ok uid)
    ∧ (∀ st userId token now st1 c,
        generateAuthenticationChallenge st userId token now = (st1, .ok c) →
        (∀ p, p ∈ st1.challenges → now - p.2.timestamp ≤ MAX_AGE)
        ∧ (∀ p, p ∈ st.challenges → now - p.2.timestamp ≤ MAX_AGE → p.1 ≠ token →
            p ∈ st1.challenges))
    ∧ (∀ st ch rc av, ledgerGet st.challenges ch = none →
        verifyAuthenticationCredential st ch rc av
          = (st, .err "Invalid or expired challenge")) := by
  refine ⟨?_, ?_, ?_⟩
  · intro st ch uid ts now rc user cidv cpkv hget hage hfind hcid hcpk hcr
    have hcr2 : counterRejected rc user.credentialCounter = false := by
      simpa using hcr
    simp [verifyAuthenticationCredential, hget, hfind, hcid, hcpk, hcr2]
  · intro st userId token now st1 c h
    unfold generateAuthenticationChallenge at h
    repeat' split at h
    all_goals try simp at h
    obtain ⟨h1, h2⟩ := h
    constructor
    · intro p hp
      rw [← h1] at hp
      exact ((mem_cleanupOldChallenges _ _ _).mp hp).2
    · intro p hp hage hne
      rw [← h1]
      exact (mem_cleanupOldChallenges _ _ _).mpr
        ⟨mem_ledgerSet_of_ne _ _ _ _ hp hne, hage⟩
  · intro st ch rc av h
    exact consume_missing_authentication _ _ _ _ h

/-- Witness for the amended C3 theorem: the expired entry ac1 consumes
successfully, a within-TTL entry survives the sweep, and a missing token
fails with the generic error. -/
theorem c3_expiry_amended_witness :
    (verifyAuthenticationCredential staleAuthState "ac1" 1 true).2 = .ok "u1"
    ∧ ("y1", ChallengeData.authentication "u1" 250000) ∈
        (⟨⟨[aliceRow], []⟩,
          [("y1", .authentication "u1" 250000),
           ("t2", .authentication "u1" 300500)]⟩ : ServerState).challenges
    ∧ verifyAuthenticationCredential bankState "gone" 1 true
        = (bankState, .err "Invalid or expired challenge") := by
  refine ⟨?_, ?_, ?_⟩
  · exact c3_expiry_amended.1 staleAuthState "ac1" "u1" 0 301000 1 aliceRow "cid" "cpk"
      (by decide) (by decide) (by decide) (by decide) (by decide) (by decide)
  · exact (c3_expiry_amended.2.1 sweepDemoState "u1" "t2" 300500
      ⟨⟨[aliceRow], []⟩,
        [("y1", .authentication "u1" 250000), ("t2", .authentication "u1" 300500)]⟩
      "t2" (by decide)).2
      ("y1", .authentication "u1" 250000) (by decide) (by decide) (by decide)
  · exact c3_expiry_amended.2.2 bankState "gone" 1 true (by decide)

/-- Claim C4: the signature-counter anti-cloning check. With an
authentication challenge and stored credential material in place, an
assertion reporting a counter less than or equal to the stored one —
except when both are exactly 0 — is rejected with the counter error and
the whole state, in particular the stored counter, is unchanged; an
assertion reporting a strictly greater counter that is otherwise valid
succeeds and persists the reported counter. -/
theorem c4_counter_monotonicity :
    ∀ st ch uid ts user cidv cpkv rc av,
      ledgerGet st.challenges ch = some (.authentication uid ts) →
      findUserById st.db uid = some user →
      user.credentialId = some cidv →
      user.credentialPublicKey = some cpkv →
      ((rc ≤ user.credentialCounter ∧ ¬ (rc = 0 ∧ user.credentialCounter = 0)) →
        verifyAuthenticationCredential st ch rc av
          = (st, .err "Response counter value was lower than expected"))
      ∧ (user.credentialCounter < rc → av = true →
        (verifyAuthenticationCredential st ch rc av).2 = .ok uid
        ∧ findUserById (verifyAuthenticationCredential st ch rc av).1.db uid
            = some { user with credentialCounter := rc }) := by
  intro st ch uid ts user cidv cpkv rc av hget hfind hcid hcpk
  constructor
  · intro hcnt
    have hcr : counterRejected rc user.credentialCounter = true := by
      simp only [counterRejected, Bool.and_eq_true, Bool.or_eq_true,
        decide_eq_true_eq]
      omega
    simp [verifyAuthenticationCredential, hget, hfind, hcid, hcpk, hcr]
  · intro hlt hav
    subst hav
    have hcr : counterRejected rc user.credentialCounter = false := by
      simp only [counterRejected, Bool.and_eq_false_iff, Bool.or_eq_false_iff,
        decide_eq_false_iff_not]
      omega
    constructor
    · simp [verifyAuthenticationCredential, hget, hfind, hcid, hcpk, hcr]
    · simp only [verifyAuthenticationCredential, hget, hfind, hcid, hcpk, hcr]
      simp [findUserById_updateUserCredentialCounter, hfind]
      exact ⟨hcid, hcpk⟩

/-- Witness for the C4 theorem at concrete inputs: against a stored counter
of 5, a reported counter of 3 is rejected with the state unchanged, and a
reported counter of 7 succeeds and persists 7. -/
theorem c4_counter_monotonicity_witness :
    verifyAuthenticationCredential cloneState "ac5" 3 true
      = (cloneState, .err "Response counter value was lower than expected")
    ∧ (verifyAuthenticationCredential cloneState "ac5" 7 true).2 = .ok "u1"
    ∧ findUserById (verifyAuthenticationCredential cloneState "ac5" 7 true).1.db "u1"
        = some { aliceRow5 with credentialCounter := 7 } := by
  have hp3 := c4_counter_monotonicity cloneState "ac5" "u1" 0 aliceRow5 "cid" "cpk" 3 true
    (by decide) (by decide) (by decide) (by decide)
  have hp7 := c4_counter_monotonicity cloneState "ac5" "u1" 0 aliceRow5 "cid" "cpk" 7 true
    (by decide) (by decide) (by decide) (by decide)
  obtain ⟨s1, s2⟩ := hp7.2 (by decide) rfl
  exact ⟨hp3.1 (by decide), s1, s2⟩

/-- Claim C5, counterexample: display-name uniqueness is NOT enforced at
the storage layer. With alice already persisted, inserting a second
identity with the same display name alice but a fresh id succeeds, and
both rows end up in the users table. -/
theorem c5_counterexample :
    findUserByUsername bankState.db "alice" = some aliceRow
    ∧ (createUser bankState.db "u2" "alice" "h2" none none).2 = true
    ∧ (createUser bankState.db "u2" "alice" "h2" none none).1.users
        = [aliceRow, ⟨"u2", "alice", "h2", none, none, 0⟩] :=
  ⟨by decide, by decide, by decide⟩

/-- Claim C5, amended: the storage layer enforces uniqueness only of the
identity id (the PRIMARY KEY): createUser succeeds exactly when no
existing row has the same id, and on success it appends the new row even
when another identity already carries the same display name — duplicate
display names are prevented only by the pre-check in the route. -/
theorem c5_storage_uniqueness_amended :
    ∀ db id un hsh c1 c2,
      ((createUser db id un hsh c1 c2).2 = true ↔ findUserById db id = none)
      ∧ ((createUser db id un hsh c1 c2).2 = true →
         (createUser db id un hsh c1 c2).1.users
           = db.users ++ [⟨id, un, hsh, c1, c2, 0⟩]) := by
  intro db id un hsh c1 c2
  unfold createUser findUserById
  by_cases hf : (db.users.find? (fun u => u.id == id)).isSome = true
  · have hne : db.users.find? (fun u => u.id == id) ≠ none := by
      intro hnone
      rw [hnone] at hf
      simp at hf
    simp [hf, hne]
  · have hnone : db.users.find? (fun u => u.id == id) = none := by
      cases hopt : db.users.find? (fun u => u.id == id) with
      | none => rfl
      | some u =>
        rw [hopt] at hf
        simp at hf
    simp [hf, hnone]

/-- Witness for the amended C5 theorem: the duplicate-display-name insert
of the counterexample succeeds and appends the row. -/
theorem c5_storage_uniqueness_amended_witness :
    (createUser bankState.db "u2" "alice" "h2" none none).2 = true
    ∧ (createUser bankState.db "u2" "alice" "h2" none none).1.users
        = bankState.db.users ++ [⟨"u2", "alice", "h2", none, none, 0⟩] := by
  have hp := c5_storage_uniqueness_amended bankState.db "u2" "alice" "h2" none none
  have ht : (createUser bankState.db "u2" "alice" "h2" none none).2 = true :=
    hp.1.mpr (by decide)
  exact ⟨ht, hp.2 ht⟩

/-- Claim C6: enumeration resistance of the password step. For any state
and any well-formed username and password, the response of the login route
when the user does not exist is exactly the response when the user exists
but the password does not match: status 401 with the message Invalid
username or password. -/
theorem c6_enumeration_resistance :
    ∀ st un pw tok now user,
      (strTrim un).length ≠ 0 → pw.length ≠ 0 →
      (findUserByUsername st.db (strTrim un) = none →
        (loginRoute st (some un) (some pw) tok now).2
          = Response.fail 401 "Invalid username or password")
      ∧ (findUserByUsername st.db (strTrim un) = some user →
         verifyPassword pw user.passwordHash = false →
         (loginRoute st (some un) (some pw) tok now).2
           = Response.fail 401 "Invalid username or password") := by
  intro st un pw tok now user hun hpw
  constructor
  · intro hf
    simp [loginRoute, hun, hpw, hf]
  · intro hf hv
    simp [loginRoute, hun, hpw, hf, hv]

/-- Witness for the C6 theorem: both failure modes at concrete inputs
produce the identical 401 response. -/
theorem c6_enumeration_resistance_witness :
    (loginRoute bankState (some "nessa") (some "whatever1") "tok" 0).2
      = Response.fail 401 "Invalid username or password"
    ∧ (loginRoute bankState (some "alice") (some "wrongpass1") "tok" 0).2
      = Response.fail 401 "Invalid username or password" := by
  constructor
  · exact (c6_enumeration_resistance bankState "nessa" "whatever1" "tok" 0 aliceRow
      (by decide) (by decide)).1 (by decide)
  · exact (c6_enumeration_resistance bankState "alice" "wrongpass1" "tok" 0 aliceRow
      (by decide) (by decide)).2 (by decide) (by decide)

/-- Claim C7: session lifetime. Every token minted by generateToken
carries exp = iat + 1800 seconds, verifies successfully at any time
strictly before exp, and fails with the Token expired error at any time
strictly after exp. -/
theorem c7_session_lifetime :
    ∀ secret uid un nowSec t1 t2,
      (generateToken secret uid un nowSec).claims.exp
        = (generateToken secret uid un nowSec).claims.iat + 1800
      ∧ (t1 < (generateToken secret uid un nowSec).claims.exp →
          verifyToken secret (generateToken secret uid un nowSec) t1
            = .ok (generateToken secret uid un nowSec).claims)
      ∧ ((generateToken secret uid un nowSec).claims.exp < t2 →
          verifyToken secret (generateToken secret uid un nowSec) t2
            = .err "Token expired") := by
  intro secret uid un nowSec t1 t2
  have hs : (generateToken secret uid un nowSec).signature
      = jwtSignature secret (generateToken secret uid un nowSec).claims := rfl
  have hia : (generateToken secret uid un nowSec).claims.iss = JWT_ISSUER
      ∧ (generateToken secret uid un nowSec).claims.aud = JWT_AUDIENCE := ⟨rfl, rfl⟩
  refine ⟨rfl, ?_, ?_⟩
  · intro ht
    have hnle : ¬ (generateToken secret uid un nowSec).claims.exp ≤ t1 := by omega
    unfold verifyToken
    rw [if_pos hs, if_neg hnle, if_pos hia]
  · intro ht
    have hle : (generateToken secret uid un nowSec).claims.exp ≤ t2 := le_of_lt ht
    unfold verifyToken
    rw [if_pos hs, if_pos hle]

/-- Witness for the C7 theorem: a token minted at second 1000 expires at
second 2800, verifies at 2799 and is expired at 2801. -/
theorem c7_session_lifetime_witness :
    (generateToken "s" "u1" "alice" 1000).claims.exp
      = (generateToken "s" "u1" "alice" 1000).claims.iat + 1800
    ∧ verifyToken "s" (generateToken "s" "u1" "alice" 1000) 2799
        = .ok (generateToken "s" "u1" "alice" 1000).claims
    ∧ verifyToken "s" (generateToken "s" "u1" "alice" 1000) 2801
        = .err "Token expired" := by
  obtain ⟨h1, h2, h3⟩ := c7_session_lifetime "s" "u1" "alice" 1000 2799 2801
  exact ⟨h1, h2 (by decide), h3 (by decide)⟩

/-- Claim C8, counterexample: the two precondition failures are not
independent — the weak-password check runs first. With alice already
registered, a request for the duplicate display name alice with a short
password fails with 400 weak password, not with the 409 duplicate error
the claim requires for every duplicate display name. -/
theorem c8_counterexample :
    findUserByUsername bankState.db "alice" = some aliceRow
    ∧ registerChallengeRoute bankState (some "alice") (some "short") "t1" "u9" 0
        = (bankState,
           Response.fail 400 "Password must be at least 8 characters long") :=
  ⟨by decide, by decide⟩

/-- Claim C8, amended: for a request with a well-formed username, the
checks run in order: a password shorter than 8 characters fails with 400
weak password (even when the display name is also a duplicate); otherwise
a duplicate display name fails with 409; otherwise neither failure occurs
and the 200 response carries the fresh challenge. Failing requests leave
the whole state — in particular the challenge ledger — untouched. -/
theorem c8_precondition_order_amended :
    ∀ st un pw tok uID now u,
      (strTrim un).length ≠ 0 →
      ((pw.length < 8 →
         registerChallengeRoute st (some un) (some pw) tok uID now
           = (st, Response.fail 400 "Password must be at least 8 characters long"))
      ∧ (8 ≤ pw.length → findUserByUsername st.db (strTrim un) = some u →
         registerChallengeRoute st (some un) (some pw) tok uID now
           = (st, Response.fail 409 "Username already exists"))
      ∧ (8 ≤ pw.length → findUserByUsername st.db (strTrim un) = none →
         (registerChallengeRoute st (some un) (some pw) tok uID now).2.status = 200
         ∧ (registerChallengeRoute st (some un) (some pw) tok uID now).2.error = none
         ∧ (registerChallengeRoute st (some un) (some pw) tok uID now).2.challenge
             = some tok)) := by
  intro st un pw tok uID now u hun
  refine ⟨?_, ?_, ?_⟩
  · intro hlen
    simp [registerChallengeRoute, hun, hlen]
  · intro hlen hdup
    have hnot : ¬ pw.length < 8 := by omega
    simp [registerChallengeRoute, hun, hnot, hdup]
  · intro hlen hnone
    have hnot : ¬ pw.length < 8 := by omega
    refine ⟨?_, ?_, ?_⟩ <;>
      simp [registerChallengeRoute, hun, hnot, hnone]

/-- Witness for the amended C8 theorem at concrete inputs: short password
gives 400, duplicate display name with a strong password gives 409, and a
fresh name with a strong password gives 200. -/
theorem c8_precondition_order_amended_witness :
    registerChallengeRoute bankState (some "bob") (some "short") "t1" "u9" 0
      = (bankState, Response.fail 400 "Password must be at least 8 characters long")
    ∧ registerChallengeRoute bankState (some "alice") (some "longpassword1") "t1" "u9" 0
        = (bankState, Response.fail 409 "Username already exists")
    ∧ (registerChallengeRoute bankState (some "bob") (some "longpassword1") "t1" "u9" 0).2.status
        = 200 := by
  obtain ⟨h1, h2, h3⟩ := c8_precondition_order_amended bankState "bob" "short"
    "t1" "u9" 0 aliceRow (by decide)
  obtain ⟨g1, g2, g3⟩ := c8_precondition_order_amended bankState "alice" "longpassword1"
    "t1" "u9" 0 aliceRow (by decide)
  obtain ⟨k1, k2, k3⟩ := c8_precondition_order_amended bankState "bob" "longpassword1"
    "t1" "u9" 0 aliceRow (by decide)
  exact ⟨h1 (by decide), g2 (by decide) (by decide), (k3 (by decide) (by decide)).1⟩

/-- Claim C9: the password_verified success event is recorded by the login
route but is NOT persisted by the event sink — the audit_events CHECK
constraint rejects the event type, the wrapper swallows the error, and the
table stays empty on a successful password verification; the two
login_failure events with their distinguishing reasons ARE persisted,
while the two external 401 responses are identical. -/
theorem c9_password_verified_not_persisted :
    (loginRoute bankState (some "alice") (some "password123") "tok" 0).2.status = 200
    ∧ (createAuditEvent bankState.db (some "u1") "password_verified"
        [("username", "alice")]).2 = false
    ∧ (loginRoute bankState (some "alice") (some "password123") "tok" 0).1.db.auditEvents
        = []
    ∧ (loginRoute bankState (some "alice") (some "wrongpass1") "tok" 0).1.db.auditEvents
        = [⟨some "u1", "login_failure",
            [("username", "alice"), ("reason", "invalid_password")]⟩]
    ∧ (loginRoute bankState (some "bob") (some "password123") "tok" 0).1.db.auditEvents
        = [⟨none, "login_failure",
            [("username", "bob"), ("reason", "user_not_found")]⟩]
    ∧ (loginRoute bankState (some "alice") (some "wrongpass1") "tok" 0).2
        = (loginRoute bankState (some "bob") (some "password123") "tok" 0).2 :=
  ⟨by decide, by decide, by decide, by decide, by decide, by decide⟩

/-- Claim C10: the registration challenge ledger stores the password in
plaintext, verbatim; on a successful attestation verification
verifyRegistrationCredential returns that plaintext password to the route,
and only the route hashes it — the persisted user row carries
hashPassword of the stashed plaintext. -/
theorem c10_plaintext_password :
    ∀ st un pw tok uID now ch uid ts cid cpk,
      ledgerGet (generateRegistrationChallenge st un pw tok uID now).1.challenges tok
        = some (.registration uID un pw now)
      ∧ (ledgerGet st.challenges ch = some (.registration uid un pw ts) →
         (verifyRegistrationCredential st ch true cid cpk).2 = .ok uid un pw cid cpk)
      ∧ (ledgerGet st.challenges ch = some (.registration uid un pw ts) →
         findUserById st.db uid = none →
         (registerVerifyRoute st (some ch) true true cid cpk).1.db.users
           = st.db.users ++ [⟨uid, un, hashPassword pw, some cid, some cpk, 0⟩]) := by
  intro st un pw tok uID now ch uid ts cid cpk
  refine ⟨?_, ?_, ?_⟩
  · simp [generateRegistrationChallenge, ledgerGet_ledgerSet_self]
  · intro hget
    simp [verifyRegistrationCredential, hget]
  · intro hget hid
    have hv : verifyRegistrationCredential st ch true cid cpk
        = ({ st with challenges := ledgerDelete st.challenges ch },
           .ok uid un pw cid cpk) := by
      simp [verifyRegistrationCredential, hget]
    have hnotsome : (st.db.users.find? (fun u => u.id == uid)).isSome = false := by
      unfold findUserById at hid
      simp [hid]
    simp [registerVerifyRoute, hv, createUser, hnotsome, createAuditEvent,
      allowedEventTypes]

/-- Witness for the C10 theorem at concrete inputs: the ledger entry for
rc9 stores the password verbatim, consuming rc1 returns the plaintext
longpassword1, and the persisted row carries its hash. -/
theorem c10_plaintext_password_witness :
    ledgerGet (generateRegistrationChallenge regPendingState "bob" "longpassword1"
        "rc9" "u9" 0).1.challenges "rc9"
      = some (.registration "u9" "bob" "longpassword1" 0)
    ∧ (verifyRegistrationCredential regPendingState "rc1" true "c" "p").2
        = .ok "u9" "bob" "longpassword1" "c" "p"
    ∧ (registerVerifyRoute regPendingState (some "rc1") true true "c" "p").1.db.users
        = regPendingState.db.users
          ++ [⟨"u9", "bob", hashPassword "longpassword1", some "c", some "p", 0⟩] := by
  obtain ⟨h1, h2, h3⟩ := c10_plaintext_password regPendingState "bob" "longpassword1"
    "rc9" "u9" 0 "rc1" "u9" 0 "c" "p"
  exact ⟨h1, h2 (by decide), h3 (by decide) (by decide)⟩

end PhishProof
